import Mathlib

/-!
Shallow embedding of `src/ant/plus/stride.py` (ANT+ Stride Based Speed and
Distance Monitor device profile decoder).

The decoder keeps one mutable record of optional sensor fields
(`Stride`), updated by `Stride._set_data` from raw 9-byte frames and read
through property accessors.  Bytes are embedded as `Nat`; Python's fallible
indexing and `struct.unpack` become `Except String`-valued operations so
that "raises no exception" is expressible.  Lock usage and side channels
(`print`, the `StrideCallback` notifications) are made observable as event
lists.
-/

namespace ANTStride

/-- Observable side effects of the decode path `Stride._set_data`:
diagnostic prints and the two `StrideCallback` notifications
(`device_found`, `stride_data`) that the surrounding class could emit. -/
inductive Event where
  | print (msg : String)
  | device_found (device_number transmission_type : Nat)
  | stride_data (num_steps distance_m : Nat)
deriving DecidableEq

/-- Lock-related actions an accessor performs, in program order:
acquiring `self.lock`, reading a shared `self._*` attribute, releasing
`self.lock`. -/
inductive AccessEvent where
  | acquire
  | readShared
  | release
deriving DecidableEq

/-- The mutable attributes of the Python class `Stride`, with Python's
`None` embedded as `Option.none`.  Field names follow the Python
attribute names. -/
structure Stride where
  _detected_device : Option (Nat × Nat)
  _stride_count : Option Nat
  _calories : Option Nat
  _hw_revision : Option Nat
  _manufacturer_id : Option Nat
  _model_number : Option Nat
  _sw_revision : Option Nat
  _serial_number : Option Nat
deriving DecidableEq

/-- The state established by `Stride.__init__`: every field is `None`. -/
def strideInit : Stride :=
  { _detected_device := none
    _stride_count := none
    _calories := none
    _hw_revision := none
    _manufacturer_id := none
    _model_number := none
    _sw_revision := none
    _serial_number := none }

/-- Python indexing `data[i]` on a byte sequence: the byte when the index
is in range, an `IndexError` otherwise. -/
def getByte (data : List Nat) (i : Nat) : Except String Nat :=
  match data.get? i with
  | some b => .ok b
  | none => .error "IndexError"

/-- `struct.unpack('>L', bs)[0]`: the big-endian unsigned 32-bit value of a
4-byte sequence; `struct.error` when the argument is not exactly 4 bytes. -/
def unpackBE32 (bs : List Nat) : Except String Nat :=
  match bs with
  | [b0, b1, b2, b3] => .ok (16777216 * b0 + 65536 * b1 + 256 * b2 + b3)
  | _ => .error "struct error"

/-- Embedding of `Stride._set_data`.  Returns the updated record together
with the list of emitted `Event`s, or an error had any byte access or
unpack failed.  The decode is guarded by the length-9 check; indices
mirror the source (`payload_offset = 1` skips the channel-number byte). -/
def set_data (self : Stride) (data : List Nat) :
    Except String (Stride × List Event) :=
  let data_size := 9
  let payload_offset := 1
  if data.length ≠ data_size then
    .ok (self, [])
  else do
    let data_page_index := 0 + payload_offset
    let device_page ← getByte data data_page_index
    if device_page = 0x01 then do
      let stride_count_index := 6 + payload_offset
      let v ← getByte data stride_count_index
      .ok ({ self with _stride_count := some v }, [])
    else if device_page = 0x02 then
      .ok (self, [.print "page 2, template"])
    else if device_page = 0x03 then do
      let calories_index := 6 + payload_offset
      let v ← getByte data calories_index
      .ok ({ self with _calories := some v }, [])
    else if device_page = 0x10 then
      .ok (self, [.print "page 16, Distance & Strides Since Battery Reset"])
    else if device_page = 0x16 then
      .ok (self, [.print "page 22, capabilities"])
    else if device_page = 0x50 then do
      let hw ← getByte data (3 + payload_offset)
      let lsb_m ← getByte data (4 + payload_offset)
      let msb_m ← getByte data (5 + payload_offset)
      let lsb_d ← getByte data (6 + payload_offset)
      let msb_d ← getByte data (7 + payload_offset)
      .ok ({ self with
              _hw_revision := some hw
              _manufacturer_id := some (256 * msb_m + lsb_m)
              _model_number := some (256 * msb_d + lsb_d) }, [])
    else if device_page = 0x51 then do
      let sw ← getByte data (3 + payload_offset)
      let serial ← unpackBE32
        ((data.drop (4 + payload_offset)).take
          ((8 + payload_offset) - (4 + payload_offset)))
      .ok ({ self with
              _sw_revision := some sw
              _serial_number := some serial }, [])
    else
      .ok (self, [])

/-- The state reached after one `_set_data` call (an erroring call — which
never happens, see the safety theorem — would leave the state as is). -/
def step (self : Stride) (data : List Nat) : Stride :=
  match set_data self data with
  | .ok (s, _) => s
  | .error _ => self

/-- The events a `_set_data` call emits (an erroring call emits none). -/
def emitted (self : Stride) (data : List Nat) : List Event :=
  match set_data self data with
  | .ok (_, ev) => ev
  | .error _ => []

/-- `with self.lock:` around an accessor body: the body's events bracketed
by acquire/release. -/
def withLock {α : Type} (body : α × List AccessEvent) : α × List AccessEvent :=
  (body.1, [AccessEvent.acquire] ++ body.2 ++ [AccessEvent.release])

/-- Reading a shared `self._*` attribute. -/
def readField {α : Type} (v : α) : α × List AccessEvent :=
  (v, [AccessEvent.readShared])

/-- The `detected_device` property: `return self._detected_device`,
with no lock taken. -/
def detected_device (self : Stride) : Option (Nat × Nat) × List AccessEvent :=
  readField self._detected_device

/-- The `stride_count` property: copy `self._stride_count` under the lock,
return the copy. -/
def stride_count (self : Stride) : Option Nat × List AccessEvent :=
  withLock (readField self._stride_count)

/-- The `hardware_revision` property: copy `self._hw_revision` under the
lock, return the copy. -/
def hardware_revision (self : Stride) : Option Nat × List AccessEvent :=
  withLock (readField self._hw_revision)

/-- The `manufacturer_id` property: copy `self._manufacturer_id` under the
lock, return the copy. -/
def manufacturer_id (self : Stride) : Option Nat × List AccessEvent :=
  withLock (readField self._manufacturer_id)

/-- The `model_number` property: copy `self._model_number` under the lock,
return the copy. -/
def model_number (self : Stride) : Option Nat × List AccessEvent :=
  withLock (readField self._model_number)

/-- The `software_revision` property: copy `self._sw_revision` under the
lock, return the copy. -/
def software_revision (self : Stride) : Option Nat × List AccessEvent :=
  withLock (readField self._sw_revision)

/-- The `serial_number` property: copy `self._serial_number` under the
lock, return the copy. -/
def serial_number (self : Stride) : Option Nat × List AccessEvent :=
  withLock (readField self._serial_number)

/-- The lock discipline the specification ascribes to every accessor:
acquire, one shared read, release. -/
def lockedTrace : List AccessEvent :=
  [AccessEvent.acquire, AccessEvent.readShared, AccessEvent.release]

/-- A list of length 9 consists of nine explicit elements. -/
theorem list_len9 {α : Type} (l : List α) (hl : l.length = 9) :
    ∃ a0 a1 a2 a3 a4 a5 a6 a7 a8, l = [a0, a1, a2, a3, a4, a5, a6, a7, a8] := by
  rcases l with _ | ⟨a0, _ | ⟨a1, _ | ⟨a2, _ | ⟨a3, _ | ⟨a4, _ | ⟨a5, _ | ⟨a6,
    _ | ⟨a7, _ | ⟨a8, _ | ⟨a9, t⟩⟩⟩⟩⟩⟩⟩⟩⟩⟩ <;>
      simp only [List.length] at hl <;> try omega
  exact ⟨a0, a1, a2, a3, a4, a5, a6, a7, a8, rfl⟩

/-- Frames whose length is not 9 are ignored: state kept, no events. -/
theorem set_data_len_ne (s : Stride) (data : List Nat) (h : data.length ≠ 9) :
    set_data s data = .ok (s, []) := by
  simp [set_data, h]

/-- Page 0x01 stores frame byte 7 into `_stride_count`. -/
theorem set_data_page01 (s : Stride) (d0 d2 d3 d4 d5 d6 d7 d8 : Nat) :
    set_data s [d0, 0x01, d2, d3, d4, d5, d6, d7, d8] =
      .ok ({ s with _stride_count := some d7 }, []) := rfl

/-- Page 0x02 only prints. -/
theorem set_data_page02 (s : Stride) (d0 d2 d3 d4 d5 d6 d7 d8 : Nat) :
    set_data s [d0, 0x02, d2, d3, d4, d5, d6, d7, d8] =
      .ok (s, [Event.print "page 2, template"]) := rfl

/-- Page 0x03 stores frame byte 7 into `_calories`. -/
theorem set_data_page03 (s : Stride) (d0 d2 d3 d4 d5 d6 d7 d8 : Nat) :
    set_data s [d0, 0x03, d2, d3, d4, d5, d6, d7, d8] =
      .ok ({ s with _calories := some d7 }, []) := rfl

/-- Page 0x10 only prints. -/
theorem set_data_page10 (s : Stride) (d0 d2 d3 d4 d5 d6 d7 d8 : Nat) :
    set_data s [d0, 0x10, d2, d3, d4, d5, d6, d7, d8] =
      .ok (s, [Event.print "page 16, Distance & Strides Since Battery Reset"]) := rfl

/-- Page 0x16 only prints. -/
theorem set_data_page16 (s : Stride) (d0 d2 d3 d4 d5 d6 d7 d8 : Nat) :
    set_data s [d0, 0x16, d2, d3, d4, d5, d6, d7, d8] =
      .ok (s, [Event.print "page 22, capabilities"]) := rfl

/-- Page 0x50 stores hardware revision, manufacturer id and model number. -/
theorem set_data_page50 (s : Stride) (d0 d2 d3 d4 d5 d6 d7 d8 : Nat) :
    set_data s [d0, 0x50, d2, d3, d4, d5, d6, d7, d8] =
      .ok ({ s with
              _hw_revision := some d4
              _manufacturer_id := some (256 * d6 + d5)
              _model_number := some (256 * d8 + d7) }, []) := rfl

/-- Page 0x51 stores software revision and big-endian serial number. -/
theorem set_data_page51 (s : Stride) (d0 d2 d3 d4 d5 d6 d7 d8 : Nat) :
    set_data s [d0, 0x51, d2, d3, d4, d5, d6, d7, d8] =
      .ok ({ s with
              _sw_revision := some d4
              _serial_number := some (16777216 * d5 + 65536 * d6 + 256 * d7 + d8) },
        []) := rfl

/-- Any other page is a no-op with no events. -/
theorem set_data_page_other (s : Stride) (d0 d1 d2 d3 d4 d5 d6 d7 d8 : Nat)
    (h01 : d1 ≠ 0x01) (h02 : d1 ≠ 0x02) (h03 : d1 ≠ 0x03) (h10 : d1 ≠ 0x10)
    (h16 : d1 ≠ 0x16) (h50 : d1 ≠ 0x50) (h51 : d1 ≠ 0x51) :
    set_data s [d0, d1, d2, d3, d4, d5, d6, d7, d8] = .ok (s, []) := by
  simp [set_data, getByte, Except.bind, bind, h01, h02, h03, h10, h16, h50, h51]

/-- C1: for every 9-byte frame with payload page byte 0x01 and
payload byte 6 (frame byte 7) equal to N, 0 ≤ N ≤ 255, `_set_data`
succeeds, the `stride_count` accessor then returns exactly N, and every
other field is unchanged. -/
theorem C1_page01_sets_stride_count (s : Stride) (data : List Nat) (N : Nat)
    (hlen : data.length = 9) (hpage : data.getD 1 0 = 0x01)
    (hN : data.getD 7 0 = N) (hNbyte : N ≤ 255) :
    ∃ s' ev, set_data s data = .ok (s', ev) ∧
      (stride_count s').1 = some N ∧
      s'._calories = s._calories ∧
      s'._hw_revision = s._hw_revision ∧
      s'._manufacturer_id = s._manufacturer_id ∧
      s'._model_number = s._model_number ∧
      s'._sw_revision = s._sw_revision ∧
      s'._serial_number = s._serial_number ∧
      s'._detected_device = s._detected_device := by
  obtain ⟨d0, d1, d2, d3, d4, d5, d6, d7, d8, rfl⟩ := list_len9 data hlen
  simp only [List.getD_cons_succ, List.getD_cons_zero] at hpage hN
  subst hpage hN
  exact ⟨_, _, set_data_page01 s d0 d2 d3 d4 d5 d6 d7 d8,
    rfl, rfl, rfl, rfl, rfl, rfl, rfl, rfl⟩

/-- Witness for C1 at the concrete frame [0,1,0,0,0,0,0,5,0] and N = 5. -/
theorem C1_page01_sets_stride_count_witness :
    ([0, 1, 0, 0, 0, 0, 0, 5, 0] : List Nat).length = 9 ∧
    ([0, 1, 0, 0, 0, 0, 0, 5, 0] : List Nat).getD 1 0 = 0x01 ∧
    ([0, 1, 0, 0, 0, 0, 0, 5, 0] : List Nat).getD 7 0 = 5 ∧ (5 : Nat) ≤ 255 ∧
    ∃ s' ev, set_data strideInit [0, 1, 0, 0, 0, 0, 0, 5, 0] = .ok (s', ev) ∧
      (stride_count s').1 = some 5 ∧
      s'._calories = strideInit._calories ∧
      s'._hw_revision = strideInit._hw_revision ∧
      s'._manufacturer_id = strideInit._manufacturer_id ∧
      s'._model_number = strideInit._model_number ∧
      s'._sw_revision = strideInit._sw_revision ∧
      s'._serial_number = strideInit._serial_number ∧
      s'._detected_device = strideInit._detected_device :=
  ⟨rfl, rfl, rfl, by decide,
    C1_page01_sets_stride_count strideInit [0, 1, 0, 0, 0, 0, 0, 5, 0] 5
      rfl rfl rfl (by decide)⟩

/-- C2: for every 9-byte frame with page byte 0x50 and payload bytes
[3]=HR, [4]=lsb_m, [5]=msb_m, [6]=lsb_d, [7]=msb_d, the accessors then
return hardware_revision = HR, manufacturer_id = msb_m*256 + lsb_m and
model_number = msb_d*256 + lsb_d. -/
theorem C2_page50_manufacturer_info (s : Stride) (data : List Nat)
    (HR lsb_m msb_m lsb_d msb_d : Nat)
    (hlen : data.length = 9) (hpage : data.getD 1 0 = 0x50)
    (h3 : data.getD 4 0 = HR) (h4 : data.getD 5 0 = lsb_m)
    (h5 : data.getD 6 0 = msb_m) (h6 : data.getD 7 0 = lsb_d)
    (h7 : data.getD 8 0 = msb_d) :
    ∃ s' ev, set_data s data = .ok (s', ev) ∧
      (hardware_revision s').1 = some HR ∧
      (manufacturer_id s').1 = some (msb_m * 256 + lsb_m) ∧
      (model_number s').1 = some (msb_d * 256 + lsb_d) := by
  obtain ⟨d0, d1, d2, d3, d4, d5, d6, d7, d8, rfl⟩ := list_len9 data hlen
  simp only [List.getD_cons_succ, List.getD_cons_zero] at hpage h3 h4 h5 h6 h7
  subst hpage h3 h4 h5 h6 h7
  exact ⟨_, _, set_data_page50 s d0 d2 d3 d4 d5 d6 d7 d8, rfl,
    by simp [manufacturer_id, withLock, readField, Nat.mul_comm],
    by simp [model_number, withLock, readField, Nat.mul_comm]⟩

/-- Witness for C2 at the frame [9,0x50,0,0,7,1,2,3,4]. -/
theorem C2_page50_manufacturer_info_witness :
    ([9, 0x50, 0, 0, 7, 1, 2, 3, 4] : List Nat).length = 9 ∧
    ([9, 0x50, 0, 0, 7, 1, 2, 3, 4] : List Nat).getD 1 0 = 0x50 ∧
    ([9, 0x50, 0, 0, 7, 1, 2, 3, 4] : List Nat).getD 4 0 = 7 ∧
    ([9, 0x50, 0, 0, 7, 1, 2, 3, 4] : List Nat).getD 5 0 = 1 ∧
    ([9, 0x50, 0, 0, 7, 1, 2, 3, 4] : List Nat).getD 6 0 = 2 ∧
    ([9, 0x50, 0, 0, 7, 1, 2, 3, 4] : List Nat).getD 7 0 = 3 ∧
    ([9, 0x50, 0, 0, 7, 1, 2, 3, 4] : List Nat).getD 8 0 = 4 ∧
    ∃ s' ev, set_data strideInit [9, 0x50, 0, 0, 7, 1, 2, 3, 4] = .ok (s', ev) ∧
      (hardware_revision s').1 = some 7 ∧
      (manufacturer_id s').1 = some (2 * 256 + 1) ∧
      (model_number s').1 = some (4 * 256 + 3) :=
  ⟨rfl, rfl, rfl, rfl, rfl, rfl, rfl,
    C2_page50_manufacturer_info strideInit [9, 0x50, 0, 0, 7, 1, 2, 3, 4]
      7 1 2 3 4 rfl rfl rfl rfl rfl rfl rfl⟩

/-- C3: for every 9-byte frame with page byte 0x51, payload[3]=SR and
payload bytes [4..7] the big-endian encoding of V, the accessors then
return software_revision = SR and serial_number = V. -/
theorem C3_page51_product_info (s : Stride) (data : List Nat) (SR V : Nat)
    (hlen : data.length = 9) (hpage : data.getD 1 0 = 0x51)
    (h3 : data.getD 4 0 = SR)
    (hV : V = 16777216 * data.getD 5 0 + 65536 * data.getD 6 0 +
      256 * data.getD 7 0 + data.getD 8 0) :
    ∃ s' ev, set_data s data = .ok (s', ev) ∧
      (software_revision s').1 = some SR ∧
      (serial_number s').1 = some V := by
  obtain ⟨d0, d1, d2, d3, d4, d5, d6, d7, d8, rfl⟩ := list_len9 data hlen
  simp only [List.getD_cons_succ, List.getD_cons_zero] at hpage h3 hV
  subst hpage h3 hV
  exact ⟨_, _, set_data_page51 s d0 d2 d3 d4 d5 d6 d7 d8, rfl, rfl⟩

/-- Witness for C3 at the frame [0,0x51,0,0,9,1,2,3,4]. -/
theorem C3_page51_product_info_witness :
    ([0, 0x51, 0, 0, 9, 1, 2, 3, 4] : List Nat).length = 9 ∧
    ([0, 0x51, 0, 0, 9, 1, 2, 3, 4] : List Nat).getD 1 0 = 0x51 ∧
    ([0, 0x51, 0, 0, 9, 1, 2, 3, 4] : List Nat).getD 4 0 = 9 ∧
    (16909060 : Nat) = 16777216 * ([0, 0x51, 0, 0, 9, 1, 2, 3, 4] : List Nat).getD 5 0 +
      65536 * ([0, 0x51, 0, 0, 9, 1, 2, 3, 4] : List Nat).getD 6 0 +
      256 * ([0, 0x51, 0, 0, 9, 1, 2, 3, 4] : List Nat).getD 7 0 +
      ([0, 0x51, 0, 0, 9, 1, 2, 3, 4] : List Nat).getD 8 0 ∧
    ∃ s' ev, set_data strideInit [0, 0x51, 0, 0, 9, 1, 2, 3, 4] = .ok (s', ev) ∧
      (software_revision s').1 = some 9 ∧
      (serial_number s').1 = some 16909060 :=
  ⟨rfl, rfl, rfl, by decide,
    C3_page51_product_info strideInit [0, 0x51, 0, 0, 9, 1, 2, 3, 4] 9 16909060
      rfl rfl rfl (by decide)⟩

/-- C4: a frame of any length other than 9 changes no field and raises no
error: `_set_data` returns `.ok` with the state unchanged and no events. -/
theorem C4_wrong_length_ignored (s : Stride) (data : List Nat)
    (h : data.length ≠ 9) :
    ∃ r, set_data s data = .ok r ∧ r.1 = s ∧ r.2 = [] :=
  ⟨(s, []), set_data_len_ne s data h, rfl, rfl⟩

/-- Witness for C4 at the 3-byte input [1,2,3]. -/
theorem C4_wrong_length_ignored_witness :
    ([1, 2, 3] : List Nat).length ≠ 9 ∧
    ∃ r, set_data strideInit [1, 2, 3] = .ok r ∧ r.1 = strideInit ∧ r.2 = [] :=
  ⟨by decide, C4_wrong_length_ignored strideInit [1, 2, 3] (by decide)⟩

/-- C5: for every input byte sequence of any length and content,
`_set_data` terminates normally: it always returns `.ok`, never an
error (no exception is raised). -/
theorem C5_never_raises (s : Stride) (data : List Nat) :
    ∃ r, set_data s data = .ok r := by
  by_cases hlen : data.length = 9
  · obtain ⟨d0, d1, d2, d3, d4, d5, d6, d7, d8, rfl⟩ := list_len9 data hlen
    by_cases h01 : d1 = 0x01
    · subst h01; exact ⟨_, set_data_page01 s d0 d2 d3 d4 d5 d6 d7 d8⟩
    · by_cases h02 : d1 = 0x02
      · subst h02; exact ⟨_, set_data_page02 s d0 d2 d3 d4 d5 d6 d7 d8⟩
      · by_cases h03 : d1 = 0x03
        · subst h03; exact ⟨_, set_data_page03 s d0 d2 d3 d4 d5 d6 d7 d8⟩
        · by_cases h10 : d1 = 0x10
          · subst h10; exact ⟨_, set_data_page10 s d0 d2 d3 d4 d5 d6 d7 d8⟩
          · by_cases h16 : d1 = 0x16
            · subst h16; exact ⟨_, set_data_page16 s d0 d2 d3 d4 d5 d6 d7 d8⟩
            · by_cases h50 : d1 = 0x50
              · subst h50; exact ⟨_, set_data_page50 s d0 d2 d3 d4 d5 d6 d7 d8⟩
              · by_cases h51 : d1 = 0x51
                · subst h51; exact ⟨_, set_data_page51 s d0 d2 d3 d4 d5 d6 d7 d8⟩
                · exact ⟨_, set_data_page_other s d0 d1 d2 d3 d4 d5 d6 d7 d8
                    h01 h02 h03 h10 h16 h50 h51⟩
  · exact ⟨_, set_data_len_ne s data hlen⟩

/-- C6: every 9-byte frame whose page byte is not one of 0x01, 0x03,
0x50, 0x51 (this includes the diagnostic pages 0x02, 0x10, 0x16 and any
unrecognized value) leaves every field unchanged and raises no error. -/
theorem C6_unhandled_page_no_field_change (s : Stride) (data : List Nat)
    (hlen : data.length = 9)
    (h01 : data.getD 1 0 ≠ 0x01) (h03 : data.getD 1 0 ≠ 0x03)
    (h50 : data.getD 1 0 ≠ 0x50) (h51 : data.getD 1 0 ≠ 0x51) :
    ∃ ev, set_data s data = .ok (s, ev) := by
  obtain ⟨d0, d1, d2, d3, d4, d5, d6, d7, d8, rfl⟩ := list_len9 data hlen
  simp only [List.getD_cons_succ, List.getD_cons_zero] at h01 h03 h50 h51
  by_cases h02 : d1 = 0x02
  · subst h02; exact ⟨_, set_data_page02 s d0 d2 d3 d4 d5 d6 d7 d8⟩
  · by_cases h10 : d1 = 0x10
    · subst h10; exact ⟨_, set_data_page10 s d0 d2 d3 d4 d5 d6 d7 d8⟩
    · by_cases h16 : d1 = 0x16
      · subst h16; exact ⟨_, set_data_page16 s d0 d2 d3 d4 d5 d6 d7 d8⟩
      · exact ⟨_, set_data_page_other s d0 d1 d2 d3 d4 d5 d6 d7 d8
          h01 h02 h03 h10 h16 h50 h51⟩

/-- Witness for C6 at the unrecognized page 0xFF. -/
theorem C6_unhandled_page_no_field_change_witness :
    ([0, 0xFF, 0, 0, 0, 0, 0, 0, 0] : List Nat).length = 9 ∧
    ([0, 0xFF, 0, 0, 0, 0, 0, 0, 0] : List Nat).getD 1 0 ≠ 0x01 ∧
    ([0, 0xFF, 0, 0, 0, 0, 0, 0, 0] : List Nat).getD 1 0 ≠ 0x03 ∧
    ([0, 0xFF, 0, 0, 0, 0, 0, 0, 0] : List Nat).getD 1 0 ≠ 0x50 ∧
    ([0, 0xFF, 0, 0, 0, 0, 0, 0, 0] : List Nat).getD 1 0 ≠ 0x51 ∧
    ∃ ev, set_data strideInit [0, 0xFF, 0, 0, 0, 0, 0, 0, 0] =
      .ok (strideInit, ev) :=
  ⟨rfl, by decide, by decide, by decide, by decide,
    C6_unhandled_page_no_field_change strideInit [0, 0xFF, 0, 0, 0, 0, 0, 0, 0]
      rfl (by decide) (by decide) (by decide) (by decide)⟩

/-- C7: processing the same frame twice in a row yields exactly the state
reached after processing it once — no accumulation. -/
theorem C7_idempotent (s : Stride) (data : List Nat) :
    step (step s data) data = step s data := by
  by_cases hlen : data.length = 9
  · obtain ⟨d0, d1, d2, d3, d4, d5, d6, d7, d8, rfl⟩ := list_len9 data hlen
    by_cases h01 : d1 = 0x01
    · subst h01; simp [step, set_data_page01]
    · by_cases h02 : d1 = 0x02
      · subst h02; simp [step, set_data_page02]
      · by_cases h03 : d1 = 0x03
        · subst h03; simp [step, set_data_page03]
        · by_cases h10 : d1 = 0x10
          · subst h10; simp [step, set_data_page10]
          · by_cases h16 : d1 = 0x16
            · subst h16; simp [step, set_data_page16]
            · by_cases h50 : d1 = 0x50
              · subst h50; simp [step, set_data_page50]
              · by_cases h51 : d1 = 0x51
                · subst h51; simp [step, set_data_page51]
                · simp [step, set_data_page_other s d0 d1 d2 d3 d4 d5 d6 d7 d8
                    h01 h02 h03 h10 h16 h50 h51,
                    set_data_page_other _ d0 d1 d2 d3 d4 d5 d6 d7 d8
                    h01 h02 h03 h10 h16 h50 h51]
  · simp [step, set_data_len_ne _ data hlen]

/-- One `_set_data` call never takes a set field back to `None`. -/
theorem step_fields_mono (s : Stride) (data : List Nat) :
    (s._stride_count.isSome → (step s data)._stride_count.isSome) ∧
    (s._calories.isSome → (step s data)._calories.isSome) ∧
    (s._hw_revision.isSome → (step s data)._hw_revision.isSome) ∧
    (s._manufacturer_id.isSome → (step s data)._manufacturer_id.isSome) ∧
    (s._model_number.isSome → (step s data)._model_number.isSome) ∧
    (s._sw_revision.isSome → (step s data)._sw_revision.isSome) ∧
    (s._serial_number.isSome → (step s data)._serial_number.isSome) := by
  by_cases hlen : data.length = 9
  · obtain ⟨d0, d1, d2, d3, d4, d5, d6, d7, d8, rfl⟩ := list_len9 data hlen
    by_cases h01 : d1 = 0x01
    · subst h01; simp [step, set_data_page01]
    · by_cases h02 : d1 = 0x02
      · subst h02; simp [step, set_data_page02]
      · by_cases h03 : d1 = 0x03
        · subst h03; simp [step, set_data_page03]
        · by_cases h10 : d1 = 0x10
          · subst h10; simp [step, set_data_page10]
          · by_cases h16 : d1 = 0x16
            · subst h16; simp [step, set_data_page16]
            · by_cases h50 : d1 = 0x50
              · subst h50; simp [step, set_data_page50]
              · by_cases h51 : d1 = 0x51
                · subst h51; simp [step, set_data_page51]
                · simp [step, set_data_page_other s d0 d1 d2 d3 d4 d5 d6 d7 d8
                    h01 h02 h03 h10 h16 h50 h51]
  · simp [step, set_data_len_ne _ data hlen]

/-- C8: every sensor field starts unset at construction, and once some
`_set_data` call has set it, no sequence of further `_set_data` calls with
any inputs ever returns it to the unset state. -/
theorem C8_fields_start_unset_and_never_revert (msgs : List (List Nat))
    (s : Stride) :
    (strideInit._stride_count = none ∧ strideInit._calories = none ∧
     strideInit._hw_revision = none ∧ strideInit._manufacturer_id = none ∧
     strideInit._model_number = none ∧ strideInit._sw_revision = none ∧
     strideInit._serial_number = none) ∧
    (s._stride_count.isSome → (msgs.foldl step s)._stride_count.isSome) ∧
    (s._calories.isSome → (msgs.foldl step s)._calories.isSome) ∧
    (s._hw_revision.isSome → (msgs.foldl step s)._hw_revision.isSome) ∧
    (s._manufacturer_id.isSome → (msgs.foldl step s)._manufacturer_id.isSome) ∧
    (s._model_number.isSome → (msgs.foldl step s)._model_number.isSome) ∧
    (s._sw_revision.isSome → (msgs.foldl step s)._sw_revision.isSome) ∧
    (s._serial_number.isSome → (msgs.foldl step s)._serial_number.isSome) := by
  refine ⟨⟨rfl, rfl, rfl, rfl, rfl, rfl, rfl⟩, ?_⟩
  induction msgs generalizing s with
  | nil => simp
  | cons d rest ih =>
    have h := step_fields_mono s d
    have h2 := ih (step s d)
    simp only [List.foldl_cons]
    exact ⟨fun hh => h2.1 (h.1 hh),
      fun hh => h2.2.1 (h.2.1 hh),
      fun hh => h2.2.2.1 (h.2.2.1 hh),
      fun hh => h2.2.2.2.1 (h.2.2.2.1 hh),
      fun hh => h2.2.2.2.2.1 (h.2.2.2.2.1 hh),
      fun hh => h2.2.2.2.2.2.1 (h.2.2.2.2.2.1 hh),
      fun hh => h2.2.2.2.2.2.2 (h.2.2.2.2.2.2 hh)⟩

/-- Witness for C8: a set stride count stays set across a later frame. -/
theorem C8_fields_start_unset_and_never_revert_witness :
    ({ strideInit with _stride_count := some 5 } : Stride)._stride_count.isSome ∧
    (List.foldl step { strideInit with _stride_count := some 5 }
      [[0, 0xFF, 0, 0, 0, 0, 0, 0, 0]])._stride_count.isSome :=
  ⟨by decide,
    (C8_fields_start_unset_and_never_revert [[0, 0xFF, 0, 0, 0, 0, 0, 0, 0]]
      { strideInit with _stride_count := some 5 }).2.1 (by decide)⟩

/-- C9 as stated is false: the `detected_device` property reads the shared
`_detected_device` attribute without acquiring the lock, so not every
accessor performs acquire/copy/release. -/
theorem C9_counterexample :
    ¬ (∀ s : Stride,
        (detected_device s).2 = lockedTrace ∧
        (stride_count s).2 = lockedTrace ∧
        (hardware_revision s).2 = lockedTrace ∧
        (manufacturer_id s).2 = lockedTrace ∧
        (model_number s).2 = lockedTrace ∧
        (software_revision s).2 = lockedTrace ∧
        (serial_number s).2 = lockedTrace) := by
  intro h
  have hd := (h strideInit).1
  simp [detected_device, readField, lockedTrace] at hd

/-- C9 amended: the six sensor accessors each acquire the lock, copy the
field, release the lock and return the copy; `detected_device` instead
returns the shared field after a single unlocked read. -/
theorem C9_amended_lock_discipline (s : Stride) :
    (stride_count s).2 = lockedTrace ∧ (stride_count s).1 = s._stride_count ∧
    (hardware_revision s).2 = lockedTrace ∧
    (hardware_revision s).1 = s._hw_revision ∧
    (manufacturer_id s).2 = lockedTrace ∧
    (manufacturer_id s).1 = s._manufacturer_id ∧
    (model_number s).2 = lockedTrace ∧ (model_number s).1 = s._model_number ∧
    (software_revision s).2 = lockedTrace ∧
    (software_revision s).1 = s._sw_revision ∧
    (serial_number s).2 = lockedTrace ∧ (serial_number s).1 = s._serial_number ∧
    (detected_device s).2 = [AccessEvent.readShared] ∧
    (detected_device s).1 = s._detected_device :=
  ⟨rfl, rfl, rfl, rfl, rfl, rfl, rfl, rfl, rfl, rfl, rfl, rfl, rfl, rfl⟩

/-- C10: no decode path emits a `device_found` or `stride_data` callback
notification, and `_detected_device` is unchanged by every frame. -/
theorem C10_no_callback_from_decode (s : Stride) (data : List Nat) :
    (∀ dn tt, Event.device_found dn tt ∉ emitted s data) ∧
    (∀ ns dm, Event.stride_data ns dm ∉ emitted s data) ∧
    (step s data)._detected_device = s._detected_device := by
  by_cases hlen : data.length = 9
  · obtain ⟨d0, d1, d2, d3, d4, d5, d6, d7, d8, rfl⟩ := list_len9 data hlen
    by_cases h01 : d1 = 0x01
    · subst h01; simp [emitted, step, set_data_page01]
    · by_cases h02 : d1 = 0x02
      · subst h02; simp [emitted, step, set_data_page02]
      · by_cases h03 : d1 = 0x03
        · subst h03; simp [emitted, step, set_data_page03]
        · by_cases h10 : d1 = 0x10
          · subst h10; simp [emitted, step, set_data_page10]
          · by_cases h16 : d1 = 0x16
            · subst h16; simp [emitted, step, set_data_page16]
            · by_cases h50 : d1 = 0x50
              · subst h50; simp [emitted, step, set_data_page50]
              · by_cases h51 : d1 = 0x51
                · subst h51; simp [emitted, step, set_data_page51]
                · simp [emitted, step,
                    set_data_page_other s d0 d1 d2 d3 d4 d5 d6 d7 d8
                      h01 h02 h03 h10 h16 h50 h51]
  · simp [emitted, step, set_data_len_ne _ data hlen]

end ANTStride
